import Mathlib

/-!
Shallow embedding of the library-management service (Express + Prisma app:
routes/book.ts, routes/users.ts, routes/admin.ts, and the initial SQL
migration).  Database tables become lists of records in a `Store`; each
route handler becomes a function from the store (plus request parameters
and the caller's identity) to an `Except`-classified result, paired with
the resulting store for handlers that write.  Timestamps are epoch
milliseconds (`Nat`); `returned_date` is `Option Nat`, `none` meaning the
rental is still open, exactly as the handlers treat the column.
-/

deriving instance DecidableEq for Except

/-- Error taxonomy: one constructor per HTTP status class the handlers emit
(400, 401, 403, 404, 409, 500). -/
inductive ApiError where
| validationError
| unauthenticated
| forbidden
| notFound
| conflict
| internal
deriving Repr, DecidableEq

/-- Row of table `user` (id, email, name, password, is_admin, isDeleted). -/
structure User where
id : String
email : String
name : String
password : String
is_admin : Bool
isDeleted : Bool
deriving Repr, DecidableEq

/-- Row of table `author`. -/
structure Author where
id : String
name : String
isDeleted : Bool
deriving Repr, DecidableEq

/-- Row of table `publisher`. -/
structure Publisher where
id : String
name : String
isDeleted : Bool
deriving Repr, DecidableEq

/-- Row of table `book`; isbn is the unique natural key (BIGINT UNSIGNED). -/
structure Book where
isbn : Nat
title : String
author_id : String
publisher_id : String
publication_year : Nat
publication_month : Nat
isDeleted : Bool
deriving Repr, DecidableEq

/-- Row of table `rental_log`.  `returned_date = none` means the rental is
still open (the handlers insert and query NULL there). -/
structure RentalLog where
id : String
book_isbn : Nat
user_id : String
checkout_date : Nat
due_date : Nat
returned_date : Option Nat
deriving Repr, DecidableEq

/-- The whole persistent state: one list per table. -/
structure Store where
users : List User
authors : List Author
publishers : List Publisher
books : List Book
rentals : List RentalLog
deriving Repr, DecidableEq

/-- One day in epoch milliseconds (`dueDate.setDate(getDate() + 7)` adds
seven of these). -/
def dayMs : Nat := 86400000

/-- `prisma.book.findUnique({ where: { isbn } })` — note: no `isDeleted`
filter in the rental and detail handlers. -/
def findBook (s : Store) (isbn : Nat) : Option Book :=
  s.books.find? (fun b => b.isbn == isbn)

/-- `prisma.rental_log.findFirst({ where: { book_isbn, returned_date: null } })`. -/
def findActiveRental (s : Store) (isbn : Nat) : Option RentalLog :=
  s.rentals.find? (fun r => r.book_isbn == isbn && r.returned_date.isNone)

/-- Payload of a successful `POST /book/rental`. -/
structure CheckoutResult where
id : String
checkout_date : Nat
due_date : Nat
deriving Repr, DecidableEq

/--
`POST /book/rental`: 401 if not logged in; 404 if `findUnique` finds no
book row for the isbn; 409 if an open rental (`returned_date` NULL) exists
for the isbn; otherwise insert a new `rental_log` row with
`due_date = checkout_date + 7 days`.  The migration declares
`UNIQUE INDEX rental_log_book_isbn_key(book_isbn)`, so the insert throws
whenever any row (open or returned) already carries this isbn; the
handler's catch turns that into a 500.  `newId` stands for the generated
row id and `now` for `new Date()`.
-/
def checkout (s : Store) (userOpt : Option String) (isbn : Nat)
    (newId : String) (now : Nat) : Except ApiError CheckoutResult × Store :=
  match userOpt with
  | none => (.error .unauthenticated, s)
  | some uid =>
    match findBook s isbn with
    | none => (.error .notFound, s)
    | some _ =>
      match findActiveRental s isbn with
      | some _ => (.error .conflict, s)
      | none =>
        if s.rentals.any (fun r => r.book_isbn == isbn) then
          (.error .internal, s)
        else
          (.ok { id := newId, checkout_date := now, due_date := now + 7 * dayMs },
           { s with rentals := s.rentals ++
              [{ id := newId, book_isbn := isbn, user_id := uid,
                 checkout_date := now, due_date := now + 7 * dayMs,
                 returned_date := none }] })

/-- Response shape of `GET /book/detail/:isbn`. -/
structure BookDetail where
isbn : String
title : String
authorName : String
publisherName : String
publication_year_month : String
is_rental : Bool
deriving Repr, DecidableEq

/--
`GET /book/detail/:isbn`: 404 if `findUnique` finds no book row for the
isbn (again with no `isDeleted` filter); otherwise resolve author and
publisher names (placeholder on a miss) and set `is_rental` from the
open-rental lookup.
-/
def getBookDetail (s : Store) (isbn : Nat) : Except ApiError BookDetail :=
  match findBook s isbn with
  | none => .error .notFound
  | some book =>
    .ok { isbn := toString book.isbn
          title := book.title
          authorName :=
            match s.authors.find? (fun a => a.id == book.author_id) with
            | some a => a.name
            | none => "不明"
          publisherName :=
            match s.publishers.find? (fun p => p.id == book.publisher_id) with
            | some p => p.name
            | none => "不明"
          publication_year_month :=
            toString book.publication_year ++ "." ++ toString book.publication_month
          is_rental := (findActiveRental s isbn).isSome }

/-- Payload of a successful `PUT /users/return`. -/
structure ReturnResult where
id : String
returned_date : Option Nat
deriving Repr, DecidableEq

/--
`PUT /users/return`: 401 if not logged in; 404 if no `rental_log` row has
the requested id; 403 if the row's `user_id` is not the caller; otherwise
set `returned_date := now` on that row — with no check that it was still
NULL.
-/
def returnBook (s : Store) (userOpt : Option String) (rentalId : String)
    (now : Nat) : Except ApiError ReturnResult × Store :=
  match userOpt with
  | none => (.error .unauthenticated, s)
  | some uid =>
    match s.rentals.find? (fun r => r.id == rentalId) with
    | none => (.error .notFound, s)
    | some rental =>
      if rental.user_id != uid then (.error .forbidden, s)
      else
        (.ok { id := rentalId, returned_date := some now },
         { s with rentals := s.rentals.map (fun r =>
            if r.id == rentalId then { r with returned_date := some now } else r) })

/-- One item of the `GET /book/list` response. -/
structure BookListItem where
isbn : String
title : String
authorName : String
publication_year_month : String
deriving Repr, DecidableEq

/-- Response shape of `GET /book/list/:page?`. -/
structure BookListPage where
current : Nat
last_page : Nat
books : List BookListItem
deriving Repr, DecidableEq

/-- Prisma `orderBy: [{publication_year: desc}, {publication_month: desc}]`:
`a` may stay before `b` when it sorts strictly earlier or ties. -/
def bookBefore (a b : Book) : Bool :=
  b.publication_year < a.publication_year ||
    (b.publication_year == a.publication_year &&
      b.publication_month ≤ a.publication_month)

/-- Insert `b` after every already-placed book that sorts before or ties
with it (stable insertion). -/
def insertBook (b : Book) : List Book → List Book
  | [] => [b]
  | x :: xs => if bookBefore x b then x :: insertBook b xs else b :: x :: xs

/-- Stable sort by (year desc, month desc): ties keep insertion order. -/
def sortBooks (l : List Book) : List Book :=
  l.foldl (fun acc b => insertBook b acc) []

/-- `lastPage = Math.ceil(totalCount / ITEMS_PER_PAGE) || 1` over the
non-deleted book count. -/
def lastPageOf (s : Store) : Nat :=
  if ((s.books.filter (fun b => !b.isDeleted)).length + 4) / 5 = 0 then 1
  else ((s.books.filter (fun b => !b.isDeleted)).length + 4) / 5

/-- The body of `handleListRequest` once `currentPage` has been clamped:
`findMany` with `take 5, skip (currentPage - 1) * 5` over the non-deleted
books sorted by (year desc, month desc), each joined with its author's
name (placeholder string when the author row is absent). -/
def listBooksPage (s : Store) (current : Nat) : BookListPage :=
  { current := current
    last_page := lastPageOf s
    books := (((sortBooks (s.books.filter (fun b => !b.isDeleted))).drop
        ((current - 1) * 5)).take 5).map (fun b =>
      { isbn := toString b.isbn
        title := b.title
        authorName :=
          match s.authors.find? (fun a => a.id == b.author_id) with
          | some a => a.name
          | none => "不明な著者"
        publication_year_month :=
          toString b.publication_year ++ "." ++ toString b.publication_month }) }

/--
`GET /book/list/:page?` (`handleListRequest`): a missing or unparseable
page parameter (`page = none`) acts as 1; `parseInt` results below 1 are
raised to 1; pages beyond `lastPage` are clamped down to it.
-/
def listBooks (s : Store) (page : Option Int) : BookListPage :=
  let parsed : Int := page.getD 1
  let p1 : Int := if parsed < 1 then 1 else parsed
  listBooksPage s (if (lastPageOf s : Int) < p1 then lastPageOf s else p1.toNat)

/-- `name: { contains: keyword }` — substring (infix) match. -/
def strContains (s pat : String) : Bool :=
  decide (pat.data <:+: s.data)

/-- `req.body.keyword || ''`: a missing keyword acts as the empty string
(and the empty string, being falsy, also maps to itself). -/
def getKeyword : Option String → String
  | none => ""
  | some v => v

/-- `GET /book/search/author`: non-deleted authors whose name contains the
keyword, projected with `select` to (id, name) only. -/
def searchAuthors (s : Store) (k : Option String) : List (String × String) :=
  (s.authors.filter (fun a => !a.isDeleted && strContains a.name (getKeyword k))).map
    (fun a => (a.id, a.name))

/-- `GET /book/search/publisher`: same shape over publishers. -/
def searchPublishers (s : Store) (k : Option String) : List (String × String) :=
  (s.publishers.filter (fun p => !p.isDeleted && strContains p.name (getKeyword k))).map
    (fun p => (p.id, p.name))

/--
`requireAdmin` middleware (JSON branch): 403 when no identity is attached;
otherwise `findUnique` the user row by id — with no `isDeleted` filter —
and 403 unless the row exists and `is_admin` is set.
-/
def requireAdmin (s : Store) (userOpt : Option String) : Except ApiError Unit :=
  match userOpt with
  | none => .error .forbidden
  | some uid =>
    match s.users.find? (fun u => u.id == uid) with
    | none => .error .forbidden
    | some u => if u.is_admin then .ok () else .error .forbidden

/-- Every `/admin` route mounts `requireAdmin` in front of its handler
`op`; on rejection the handler never runs and the store is untouched. -/
def adminOp {α : Type} (s : Store) (userOpt : Option String)
    (op : Store → Except ApiError α × Store) : Except ApiError α × Store :=
  match requireAdmin s userOpt with
  | .error e => (.error e, s)
  | .ok _ => op s

/-- `DELETE /admin/author`: soft-delete the author row by id (the update
throws into a 400 when no row matches). -/
def deleteAuthor (s : Store) (userOpt : Option String) (authorId : String) :
    Except ApiError String × Store :=
  adminOp s userOpt (fun st =>
    if st.authors.any (fun a => a.id == authorId) then
      (.ok "削除しました",
       { st with authors := st.authors.map (fun a =>
          if a.id == authorId then { a with isDeleted := true } else a) })
    else (.error .validationError, st))

/-! ### Shared inversion lemma for a successful checkout -/

/-- A successful `checkout` pins down everything: the book row was found,
no open rental existed, no row at all carried the isbn (unique index), and
the result and new store are the literal insert. -/
theorem checkout_ok_inv (s : Store) (uid : String) (isbn : Nat) (newId : String)
    (now : Nat) (res : CheckoutResult) (s' : Store)
    (h : checkout s (some uid) isbn newId now = (Except.ok res, s')) :
    ∃ b, findBook s isbn = some b ∧
      findActiveRental s isbn = none ∧
      s.rentals.any (fun r => r.book_isbn == isbn) = false ∧
      res = { id := newId, checkout_date := now, due_date := now + 7 * dayMs } ∧
      s' = { s with rentals := s.rentals ++
        [{ id := newId, book_isbn := isbn, user_id := uid, checkout_date := now,
           due_date := now + 7 * dayMs, returned_date := none }] } := by
  cases hb : findBook s isbn with
  | none =>
    rw [show checkout s (some uid) isbn newId now = (Except.error ApiError.notFound, s) by
      simp [checkout, hb]] at h
    simp at h
  | some b =>
    cases hr : findActiveRental s isbn with
    | some r0 =>
      rw [show checkout s (some uid) isbn newId now = (Except.error ApiError.conflict, s) by
        simp [checkout, hb, hr]] at h
      simp at h
    | none =>
      cases hdup : s.rentals.any (fun r => r.book_isbn == isbn) with
      | true =>
        rw [show checkout s (some uid) isbn newId now = (Except.error ApiError.internal, s) by
          simp [checkout, hb, hr, hdup]] at h
        simp at h
      | false =>
        rw [show checkout s (some uid) isbn newId now =
            (Except.ok { id := newId, checkout_date := now, due_date := now + 7 * dayMs },
             { s with rentals := s.rentals ++
               [{ id := newId, book_isbn := isbn, user_id := uid, checkout_date := now,
                  due_date := now + 7 * dayMs, returned_date := none }] }) by
          simp [checkout, hb, hr, hdup]] at h
        injection h with h1 h2
        injection h1 with h1
        exact ⟨b, rfl, rfl, rfl, h1.symm, h2.symm⟩

/-! ### C1 -/

/-- Store with a single soft-deleted book: `isDeleted := true`. -/
def storeC1 : Store :=
  { users := [], authors := [], publishers := [],
    books := [{ isbn := 100, title := "T", author_id := "a1", publisher_id := "p1",
                publication_year := 2020, publication_month := 5, isDeleted := true }],
    rentals := [] }

/-- C1 fails as stated: with book 100 soft-deleted, `getBookDetail` still
answers 200 (the `findUnique` lookups in the detail and rental handlers
carry no `isDeleted` filter) and `checkout` succeeds and creates a
`rental_log` row instead of failing with NotFound. -/
theorem c1_counterexample :
    getBookDetail storeC1 100 =
      Except.ok { isbn := "100", title := "T", authorName := "不明",
                  publisherName := "不明", publication_year_month := "2020.5",
                  is_rental := false } ∧
    (checkout storeC1 (some "u") 100 "r1" 0).1 =
      Except.ok { id := "r1", checkout_date := 0, due_date := 604800000 } ∧
    (checkout storeC1 (some "u") 100 "r1" 0).2.rentals.length = 1 := by
  decide

/-- C1 amended: when no Book row at all carries the isbn, `getBookDetail`
and `checkout` both fail with NotFound and the store is unchanged (no
RentalLog row is created); a soft-deleted row, however, is treated as
present by both handlers. -/
theorem c1_amended (s : Store) (isbn : Nat) (uid newId : String) (now : Nat)
    (h : ∀ b ∈ s.books, b.isbn ≠ isbn) :
    getBookDetail s isbn = Except.error ApiError.notFound ∧
    checkout s (some uid) isbn newId now = (Except.error ApiError.notFound, s) := by
  have hfb : findBook s isbn = none := by
    rw [findBook, List.find?_eq_none]
    intro b hb
    simp [h b hb]
  exact ⟨by simp [getBookDetail, hfb], by simp [checkout, hfb]⟩

/-- Store holding only a book with isbn 7, so isbn 5 is absent. -/
def storeC1W : Store :=
  { users := [], authors := [], publishers := [],
    books := [{ isbn := 7, title := "T", author_id := "a1", publisher_id := "p1",
                publication_year := 2020, publication_month := 5, isDeleted := false }],
    rentals := [] }

/-- C1 amended, witnessed on a store where isbn 5 has no row. -/
theorem c1_amended_witness :
    getBookDetail storeC1W 5 = Except.error ApiError.notFound ∧
    checkout storeC1W (some "u") 5 "r1" 0 = (Except.error ApiError.notFound, storeC1W) :=
  c1_amended storeC1W 5 "u" "r1" 0 (by decide)

/-! ### C2 -/

/-- Book 9780000000001 on the shelf, no rentals yet. -/
def storeC2a : Store :=
  { users := [], authors := [], publishers := [],
    books := [{ isbn := 9780000000001, title := "T", author_id := "a1",
                publisher_id := "p1", publication_year := 2020,
                publication_month := 1, isDeleted := false }],
    rentals := [] }

/-- State after user A checks the book out. -/
def storeC2b : Store := (checkout storeC2a (some "userA") 9780000000001 "r1" 0).2

/-- State after user A returns it. -/
def storeC2c : Store := (returnBook storeC2b (some "userA") "r1" 1000).2

/-- C2: the spec's scenario replayed.  A's checkout and A's return both
succeed and afterwards no open rental remains — the availability check
would let B in — yet B's checkout fails with a 500: the migration's
`UNIQUE INDEX rental_log_book_isbn_key(book_isbn)` rejects a second
`rental_log` row for the isbn ever, so the store does not admit multiple
historical rentals per book and the handler's catch maps the constraint
violation to Internal instead of the success the claim states. -/
theorem c2_schema_unique_violation :
    (checkout storeC2a (some "userA") 9780000000001 "r1" 0).1 =
      Except.ok { id := "r1", checkout_date := 0, due_date := 604800000 } ∧
    (returnBook storeC2b (some "userA") "r1" 1000).1 =
      Except.ok { id := "r1", returned_date := some 1000 } ∧
    findActiveRental storeC2c 9780000000001 = none ∧
    checkout storeC2c (some "userB") 9780000000001 "r2" 2000 =
      (Except.error ApiError.internal, storeC2c) := by
  decide

/-! ### C3 -/

/-- A soft-deleted user who still has `is_admin := true`, plus one live
author row for the operation to act on. -/
def storeC3 : Store :=
  { users := [{ id := "u1", email := "e", name := "n", password := "p",
                is_admin := true, isDeleted := true }],
    authors := [{ id := "a1", name := "A", isDeleted := false }],
    publishers := [], books := [], rentals := [] }

/-- C3 fails as stated: the caller's user row is soft-deleted, yet
`requireAdmin` (whose `findUnique` has no `isDeleted` filter) lets the
request through and the delete-author effect is applied. -/
theorem c3_counterexample :
    (storeC3.users.find? (fun u => u.id == "u1")).map User.isDeleted = some true ∧
    deleteAuthor storeC3 (some "u1") "a1" =
      (Except.ok "削除しました",
       { storeC3 with authors := [{ id := "a1", name := "A", isDeleted := true }] }) := by
  decide

/-- C3 amended: every admin operation runs behind `requireAdmin`, which
rejects with Forbidden — leaving the store untouched — any caller with no
identity, no user row, or `is_admin = false`; the user row's soft-delete
flag is not consulted, so a soft-deleted admin still passes. -/
theorem c3_amended {α : Type} (s : Store) (uo : Option String)
    (op : Store → Except ApiError α × Store)
    (h : ∀ uid, uo = some uid → ∀ u ∈ s.users, u.id = uid → u.is_admin = false) :
    adminOp s uo op = (Except.error ApiError.forbidden, s) := by
  cases uo with
  | none => rfl
  | some uid =>
    have hra : requireAdmin s (some uid) = Except.error ApiError.forbidden := by
      simp only [requireAdmin]
      cases hf : s.users.find? (fun u => u.id == uid) with
      | none => rfl
      | some u =>
        have hu := List.mem_of_find?_eq_some hf
        have hpu := List.find?_some hf
        have hna : u.is_admin = false := h uid rfl u hu (eq_of_beq hpu)
        simp [hna]
    simp [adminOp, hra]

/-- A user row that is present and live but not an admin. -/
def storeC3W : Store :=
  { users := [{ id := "u2", email := "e", name := "n", password := "p",
                is_admin := false, isDeleted := false }],
    authors := [], publishers := [], books := [], rentals := [] }

/-- C3 amended, witnessed: a logged-in non-admin is turned away with
Forbidden before the handler runs. -/
theorem c3_amended_witness :
    adminOp storeC3W (some "u2") (fun st => (Except.ok (0 : Nat), st)) =
      (Except.error ApiError.forbidden, storeC3W) :=
  c3_amended storeC3W (some "u2") (fun st => (Except.ok (0 : Nat), st))
    (by
      intro uid huid u hu hid
      cases huid
      simp only [storeC3W, List.mem_singleton] at hu
      subst hu
      rfl)

/-! ### C6 -/

/-- C6: `PUT /users/return` by a logged-in user fails with NotFound when
no `rental_log` row has the requested id, and with Forbidden when the row
exists but belongs to another user; in both cases the store — and so every
RentalLog row — is returned unmodified. -/
theorem c6_return_failures (s : Store) (uid rentalId : String) (now : Nat) :
    ((∀ r ∈ s.rentals, r.id ≠ rentalId) →
      returnBook s (some uid) rentalId now = (Except.error ApiError.notFound, s)) ∧
    (∀ r, s.rentals.find? (fun x => x.id == rentalId) = some r → r.user_id ≠ uid →
      returnBook s (some uid) rentalId now = (Except.error ApiError.forbidden, s)) := by
  constructor
  · intro h
    have hf : s.rentals.find? (fun x => x.id == rentalId) = none := by
      rw [List.find?_eq_none]
      intro x hx
      simp [h x hx]
    simp [returnBook, hf]
  · intro r hf hne
    have hbne : (r.user_id != uid) = true := by simp [bne_iff_ne, hne]
    simp [returnBook, hf, hbne]

/-- One open rental `r1` owned by `owner`. -/
def storeC6 : Store :=
  { users := [], authors := [], publishers := [],
    books := [], rentals := [{ id := "r1", book_isbn := 1, user_id := "owner",
                               checkout_date := 0, due_date := 604800000,
                               returned_date := none }] }

/-- C6 witnessed: an unknown rental id gives NotFound; someone else's
rental gives Forbidden; the store is unchanged both times. -/
theorem c6_witness :
    returnBook storeC6 (some "owner") "nope" 5 = (Except.error ApiError.notFound, storeC6) ∧
    returnBook storeC6 (some "other") "r1" 5 = (Except.error ApiError.forbidden, storeC6) :=
  ⟨(c6_return_failures storeC6 "owner" "nope" 5).1 (by decide),
   (c6_return_failures storeC6 "other" "r1" 5).2
     { id := "r1", book_isbn := 1, user_id := "owner", checkout_date := 0,
       due_date := 604800000, returned_date := none } (by decide) (by decide)⟩

/-! ### C7 -/

/-- C7: `PUT /users/return` never checks that `returned_date` is still
NULL, so the owning user's second return of an already-returned row
succeeds (no Conflict) and every row with that id now carries the new
timestamp, overwriting the old one. -/
theorem c7_double_return (s : Store) (uid rentalId : String) (r : RentalLog)
    (now t : Nat)
    (hfind : s.rentals.find? (fun x => x.id == rentalId) = some r)
    (hown : r.user_id = uid)
    (hret : r.returned_date = some t) :
    ∃ s', returnBook s (some uid) rentalId now =
        (Except.ok { id := rentalId, returned_date := some now }, s') ∧
      ∀ r' ∈ s'.rentals, r'.id = rentalId → r'.returned_date = some now := by
  have hbne : (r.user_id != uid) = false := by simp [hown]
  refine ⟨{ s with rentals := s.rentals.map (fun x =>
      if x.id == rentalId then { x with returned_date := some now } else x) }, ?_, ?_⟩
  · simp [returnBook, hfind, hbne]
  · intro r' hr' hid
    simp only [List.mem_map] at hr'
    obtain ⟨r0, hr0, hup⟩ := hr'
    cases hc : (r0.id == rentalId) with
    | true => rw [← hup]; simp [hc]
    | false =>
      rw [← hup] at hid
      simp only [hc, if_neg] at hid
      exact absurd hid (by simpa using hc)

/-- One rental `r1` owned by `u`, already returned at time 50. -/
def storeC7 : Store :=
  { users := [], authors := [], publishers := [],
    books := [], rentals := [{ id := "r1", book_isbn := 1, user_id := "u",
                               checkout_date := 0, due_date := 604800000,
                               returned_date := some 50 }] }

/-- C7 witnessed: returning `r1` again at time 99 succeeds and overwrites
the timestamp 50 with 99. -/
theorem c7_witness :
    ∃ s', returnBook storeC7 (some "u") "r1" 99 =
        (Except.ok { id := "r1", returned_date := some 99 }, s') ∧
      ∀ r' ∈ s'.rentals, r'.id = "r1" → r'.returned_date = some 99 :=
  c7_double_return storeC7 "u" "r1"
    { id := "r1", book_isbn := 1, user_id := "u", checkout_date := 0,
      due_date := 604800000, returned_date := some 50 } 99 50 (by decide) rfl rfl

/-! ### C10 -/

/-- C10: with a missing keyword (or the empty string, which the `|| ''`
default maps to itself), the `contains` filter matches every name, so both
search endpoints return exactly the non-deleted rows, projected by
`select` onto the (id, name) pair and nothing else. -/
theorem c10_empty_keyword (s : Store) (k : Option String)
    (hk : k = none ∨ k = some "") :
    searchAuthors s k =
      (s.authors.filter (fun a => !a.isDeleted)).map (fun a => (a.id, a.name)) ∧
    searchPublishers s k =
      (s.publishers.filter (fun p => !p.isDeleted)).map (fun p => (p.id, p.name)) := by
  have hkw : getKeyword k = "" := by
    rcases hk with h | h <;> simp [h, getKeyword]
  have hc : ∀ nm : String, strContains nm "" = true := by
    intro nm
    have hd : ("".data : List Char) = [] := rfl
    simp [strContains, hd, List.nil_infix]
  constructor
  · simp [searchAuthors, hkw, hc]
  · simp [searchPublishers, hkw, hc]

/-- One live and one soft-deleted row in each directory. -/
def storeC10 : Store :=
  { users := [],
    authors := [{ id := "a1", name := "Alice", isDeleted := false },
                { id := "a2", name := "Bob", isDeleted := true }],
    publishers := [{ id := "p1", name := "Pub", isDeleted := false },
                   { id := "p2", name := "Gone", isDeleted := true }],
    books := [], rentals := [] }

/-- C10 witnessed on a store with soft-deleted rows and a missing keyword. -/
theorem c10_witness :
    searchAuthors storeC10 none =
      (storeC10.authors.filter (fun a => !a.isDeleted)).map (fun a => (a.id, a.name)) ∧
    searchPublishers storeC10 none =
      (storeC10.publishers.filter (fun p => !p.isDeleted)).map (fun p => (p.id, p.name)) :=
  c10_empty_keyword storeC10 none (Or.inl rfl)

/-- When the book lookup succeeds, `GET /book/detail/:isbn` answers 200
with the joined record; in particular `is_rental` is exactly the
open-rental test. -/
theorem getBookDetail_ok (s : Store) (isbn : Nat) (b : Book)
    (hb : findBook s isbn = some b) :
    getBookDetail s isbn = Except.ok
      { isbn := toString b.isbn
        title := b.title
        authorName :=
          match s.authors.find? (fun a => a.id == b.author_id) with
          | some a => a.name
          | none => "不明"
        publisherName :=
          match s.publishers.find? (fun p => p.id == b.publisher_id) with
          | some p => p.name
          | none => "不明"
        publication_year_month :=
          toString b.publication_year ++ "." ++ toString b.publication_month
        is_rental := (findActiveRental s isbn).isSome } := by
  simp only [getBookDetail, hb]

/-! ### C4 -/

/-- C4: after a successful checkout the detail page shows
`is_rental = true`, a further checkout of the same isbn by any user is
rejected with Conflict leaving the store unchanged, and the freshly
created RentalLog row still has `returned_date = NULL`. -/
theorem c4_checkout_then_conflict (s : Store) (uid u2 : String) (isbn : Nat)
    (newId newId2 : String) (now now2 : Nat) (res : CheckoutResult) (s' : Store)
    (h : checkout s (some uid) isbn newId now = (Except.ok res, s')) :
    (∃ d, getBookDetail s' isbn = Except.ok d ∧ d.is_rental = true) ∧
    checkout s' (some u2) isbn newId2 now2 = (Except.error ApiError.conflict, s') ∧
    ∃ r ∈ s'.rentals, r.id = newId ∧ r.book_isbn = isbn ∧ r.returned_date = none := by
  obtain ⟨b, hb, hr, hdup, hres, hs'⟩ := checkout_ok_inv s uid isbn newId now res s' h
  subst hs'
  have hb' : findBook { s with rentals := s.rentals ++
      [{ id := newId, book_isbn := isbn, user_id := uid, checkout_date := now,
         due_date := now + 7 * dayMs, returned_date := none }] } isbn = some b := hb
  have hr' : findActiveRental { s with rentals := s.rentals ++
      [{ id := newId, book_isbn := isbn, user_id := uid, checkout_date := now,
         due_date := now + 7 * dayMs, returned_date := none }] } isbn =
      some { id := newId, book_isbn := isbn, user_id := uid, checkout_date := now,
             due_date := now + 7 * dayMs, returned_date := none } := by
    have hnone : s.rentals.find?
        (fun r => r.book_isbn == isbn && r.returned_date.isNone) = none := hr
    simp [findActiveRental, List.find?_append, hnone]
  refine ⟨?_, ?_, ?_⟩
  · exact ⟨_, getBookDetail_ok _ isbn b hb', by simp [hr']⟩
  · simp [checkout, hb', hr']
  · exact ⟨{ id := newId, book_isbn := isbn, user_id := uid, checkout_date := now,
             due_date := now + 7 * dayMs, returned_date := none },
           by simp, rfl, rfl, rfl⟩

/-- One live book with isbn 1, nothing else. -/
def storeC4 : Store :=
  { users := [], authors := [], publishers := [],
    books := [{ isbn := 1, title := "T", author_id := "a1", publisher_id := "p1",
                publication_year := 2020, publication_month := 5, isDeleted := false }],
    rentals := [] }

/-- `storeC4` right after `checkout storeC4 (some "u") 1 "r1" 0`. -/
def storeC4r : Store :=
  { storeC4 with rentals := [{ id := "r1", book_isbn := 1, user_id := "u",
                               checkout_date := 0, due_date := 604800000,
                               returned_date := none }] }

/-- C4 witnessed on a concrete successful checkout. -/
theorem c4_witness :
    (∃ d, getBookDetail storeC4r 1 = Except.ok d ∧ d.is_rental = true) ∧
    checkout storeC4r (some "v") 1 "r2" 5 = (Except.error ApiError.conflict, storeC4r) ∧
    ∃ r ∈ storeC4r.rentals, r.id = "r1" ∧ r.book_isbn = 1 ∧ r.returned_date = none :=
  c4_checkout_then_conflict storeC4 "u" "v" 1 "r1" "r2" 0 5
    { id := "r1", checkout_date := 0, due_date := 604800000 } storeC4r (by decide)

/-! ### C5 -/

/-- C5: when the caller owns the rental row and no other open rental
carries the book's isbn, `PUT /users/return` succeeds and afterwards the
detail page reports `is_rental = false`. -/
theorem c5_return_clears (s : Store) (uid rentalId : String) (isbn : Nat)
    (r : RentalLog) (b : Book) (now : Nat)
    (hfind : s.rentals.find? (fun x => x.id == rentalId) = some r)
    (hown : r.user_id = uid)
    (hisbn : r.book_isbn = isbn)
    (hb : findBook s isbn = some b)
    (honly : ∀ r' ∈ s.rentals, r'.book_isbn = isbn → r'.returned_date = none →
      r'.id = rentalId) :
    ∃ s', returnBook s (some uid) rentalId now =
        (Except.ok { id := rentalId, returned_date := some now }, s') ∧
      ∃ d, getBookDetail s' isbn = Except.ok d ∧ d.is_rental = false := by
  have hbne : (r.user_id != uid) = false := by simp [hown]
  refine ⟨{ s with rentals := s.rentals.map (fun x =>
      if x.id == rentalId then { x with returned_date := some now } else x) }, ?_, ?_⟩
  · simp [returnBook, hfind, hbne]
  · have hb' : findBook { s with rentals := s.rentals.map (fun x =>
        if x.id == rentalId then { x with returned_date := some now } else x) } isbn =
        some b := hb
    have hact : findActiveRental { s with rentals := s.rentals.map (fun x =>
        if x.id == rentalId then { x with returned_date := some now } else x) } isbn =
        none := by
      rw [findActiveRental, List.find?_eq_none]
      intro x hx
      simp only [List.mem_map] at hx
      obtain ⟨x0, hx0, hup⟩ := hx
      cases hc : (x0.id == rentalId) with
      | true => rw [← hup]; simp [hc]
      | false =>
        rw [← hup]
        simp only [hc, if_neg]
        intro hp
        simp only [Bool.and_eq_true, beq_iff_eq, Option.isNone_iff_eq_none] at hp
        exact absurd (honly x0 hx0 hp.1 hp.2) (by simpa using hc)
    refine ⟨_, getBookDetail_ok _ isbn b hb', ?_⟩
    show (findActiveRental { s with rentals := s.rentals.map (fun x =>
        if x.id == rentalId then { x with returned_date := some now } else x) }
      isbn).isSome = false
    rw [hact]
    rfl

/-- Book 1 checked out once, by `u`, rental still open. -/
def storeC5 : Store :=
  { users := [], authors := [], publishers := [],
    books := [{ isbn := 1, title := "T", author_id := "a1", publisher_id := "p1",
                publication_year := 2020, publication_month := 5, isDeleted := false }],
    rentals := [{ id := "r1", book_isbn := 1, user_id := "u", checkout_date := 0,
                  due_date := 604800000, returned_date := none }] }

/-- C5 witnessed: after `u` returns `r1`, book 1 shows as available. -/
theorem c5_witness :
    ∃ s', returnBook storeC5 (some "u") "r1" 9 =
        (Except.ok { id := "r1", returned_date := some 9 }, s') ∧
      ∃ d, getBookDetail s' 1 = Except.ok d ∧ d.is_rental = false :=
  c5_return_clears storeC5 "u" "r1" 1
    { id := "r1", book_isbn := 1, user_id := "u", checkout_date := 0,
      due_date := 604800000, returned_date := none }
    { isbn := 1, title := "T", author_id := "a1", publisher_id := "p1",
      publication_year := 2020, publication_month := 5, isDeleted := false }
    9 (by decide) rfl rfl (by decide) (by decide)

/-! ### C9 -/

/-- C9: a successful checkout reports and stores
`due_date = checkout_date + 7 days`, and the only operation that ever
updates a RentalLog row afterwards — `PUT /users/return` — preserves every
row's id, checkout_date and due_date, so the due date is never recomputed. -/
theorem c9_due_date_fixed (s : Store) (uid : String) (isbn : Nat) (newId : String)
    (now : Nat) (res : CheckoutResult) (s' : Store)
    (h : checkout s (some uid) isbn newId now = (Except.ok res, s')) :
    res.due_date = res.checkout_date + 7 * dayMs ∧
    (∃ r ∈ s'.rentals, r.id = newId ∧ r.checkout_date = now ∧
      r.due_date = now + 7 * dayMs) ∧
    ∀ (t : Store) (uo : Option String) (rid : String) (n2 : Nat),
      (returnBook t uo rid n2).2.rentals.map (fun x => (x.id, x.checkout_date, x.due_date)) =
        t.rentals.map (fun x => (x.id, x.checkout_date, x.due_date)) := by
  obtain ⟨b, hb, hr, hdup, hres, hs'⟩ := checkout_ok_inv s uid isbn newId now res s' h
  subst hres hs'
  refine ⟨rfl, ⟨{ id := newId, book_isbn := isbn, user_id := uid, checkout_date := now,
                  due_date := now + 7 * dayMs, returned_date := none },
                by simp, rfl, rfl, rfl⟩, ?_⟩
  intro t uo rid n2
  cases uo with
  | none => rfl
  | some u =>
    simp only [returnBook]
    split
    · rfl
    · split
      · rfl
      · rw [List.map_map]
        refine List.map_congr_left ?_
        intro x hx
        by_cases hc : x.id = rid
        · simp [hc]
        · simp [hc]

/-- One live book with isbn 2, nothing else. -/
def storeC9 : Store :=
  { users := [], authors := [], publishers := [],
    books := [{ isbn := 2, title := "T", author_id := "a1", publisher_id := "p1",
                publication_year := 2021, publication_month := 1, isDeleted := false }],
    rentals := [] }

/-- `storeC9` right after `checkout storeC9 (some "u") 2 "r1" 10`. -/
def storeC9r : Store :=
  { storeC9 with rentals := [{ id := "r1", book_isbn := 2, user_id := "u",
                               checkout_date := 10, due_date := 604800010,
                               returned_date := none }] }

/-- C9 witnessed on a concrete successful checkout at time 10. -/
theorem c9_witness :
    ({ id := "r1", checkout_date := 10, due_date := 604800010 } : CheckoutResult).due_date =
      ({ id := "r1", checkout_date := 10, due_date := 604800010 } : CheckoutResult).checkout_date + 7 * dayMs ∧
    (∃ r ∈ storeC9r.rentals, r.id = "r1" ∧ r.checkout_date = 10 ∧
      r.due_date = 10 + 7 * dayMs) ∧
    ∀ (t : Store) (uo : Option String) (rid : String) (n2 : Nat),
      (returnBook t uo rid n2).2.rentals.map (fun x => (x.id, x.checkout_date, x.due_date)) =
        t.rentals.map (fun x => (x.id, x.checkout_date, x.due_date)) :=
  c9_due_date_fixed storeC9 "u" 2 "r1" 10
    { id := "r1", checkout_date := 10, due_date := 604800010 } storeC9r (by decide)

/-! ### C8 -/

/-- C8: `handleListRequest` clamps the page into `[1, lastPage]` where
`lastPage = ceil(total/5) || 1` is at least 1 even on an empty catalog:
a page argument ≤ 0 behaves exactly like page 1, a missing or unparseable
argument also behaves like page 1, and any page above `lastPage` returns
the very same page as `lastPage` itself. -/
theorem c8_page_clamping (s : Store) (p : Int) :
    (p ≤ 0 → listBooks s (some p) = listBooks s (some 1)) ∧
    listBooks s none = listBooks s (some 1) ∧
    1 ≤ lastPageOf s ∧
    (listBooks s (some 1)).last_page = lastPageOf s ∧
    ((lastPageOf s : Int) < p →
      listBooks s (some p) = listBooks s (some (lastPageOf s : Int))) := by
  have hL : 1 ≤ lastPageOf s := by
    rw [lastPageOf]
    split <;> omega
  refine ⟨?_, rfl, hL, rfl, ?_⟩
  · intro hp
    simp only [listBooks, Option.getD_some]
    rw [show (if p < 1 then (1 : Int) else p) = (if (1 : Int) < 1 then 1 else 1) by
      rw [if_pos (by omega), if_neg (by omega)]]
  · intro hp
    simp only [listBooks, Option.getD_some]
    rw [if_neg (show ¬ (p < 1) by omega),
        if_neg (show ¬ ((lastPageOf s : Int) < 1) by omega),
        if_pos hp, if_neg (lt_irrefl ((lastPageOf s : Int))), Int.toNat_natCast]

/-- Seven live books (lastPage 2) and one soft-deleted one. -/
def storeC8 : Store :=
  { users := [], authors := [], publishers := [],
    books := [{ isbn := 1, title := "B1", author_id := "a", publisher_id := "p",
                publication_year := 2021, publication_month := 3, isDeleted := false },
              { isbn := 2, title := "B2", author_id := "a", publisher_id := "p",
                publication_year := 2020, publication_month := 4, isDeleted := false },
              { isbn := 3, title := "B3", author_id := "a", publisher_id := "p",
                publication_year := 2020, publication_month := 4, isDeleted := false },
              { isbn := 4, title := "B4", author_id := "a", publisher_id := "p",
                publication_year := 2019, publication_month := 1, isDeleted := false },
              { isbn := 5, title := "B5", author_id := "a", publisher_id := "p",
                publication_year := 2022, publication_month := 7, isDeleted := false },
              { isbn := 6, title := "B6", author_id := "a", publisher_id := "p",
                publication_year := 2022, publication_month := 2, isDeleted := false },
              { isbn := 7, title := "B7", author_id := "a", publisher_id := "p",
                publication_year := 2018, publication_month := 9, isDeleted := false },
              { isbn := 8, title := "B8", author_id := "a", publisher_id := "p",
                publication_year := 2023, publication_month := 1, isDeleted := true }],
    rentals := [] }

/-- C8 witnessed: page -3 renders like page 1 and page 9 like the last
page of a 7-book catalog. -/
theorem c8_witness :
    listBooks storeC8 (some (-3)) = listBooks storeC8 (some 1) ∧
    listBooks storeC8 (some 9) = listBooks storeC8 (some (lastPageOf storeC8 : Int)) :=
  ⟨(c8_page_clamping storeC8 (-3)).1 (by decide),
   (c8_page_clamping storeC8 9).2.2.2.2 (by decide)⟩
